import Mathlib

/-!
Verification development for the BCParks assets data workflow
(bcparks_assets_data_workflow.py).

The script is a linear ETL pipeline: it reads asset tables from a Postgres
schema, cleans and reshapes them with pandas / geopandas, and publishes the
results as GeoJSON-backed feature layers to ArcGIS Online (AGO).

The embedding below models the tabular data flow shallowly:
a cell is a `Value` (null / string / rational number / datetime / geometry),
a row is an association list from column labels to values, and a dataframe
carries an ordered column list together with its rows.  Fallible pandas
operations (KeyError, TypeError, SQL errors, unbound locals) are modelled
with `Except String`.  Library effects that the script merely invokes
(the Postgres driver, the AGO content store) are modelled as explicit
oracles or state that the embedded functions thread through.
-/

set_option maxHeartbeats 1000000

/-- Geometries as they occur in the workflow: WGS84 points built from
longitude/latitude pairs, and line strings (trails, roads). -/
inductive Geom where
  | point (lon lat : Rat)
  | lineString (coords : List (Rat × Rat))
deriving DecidableEq, Repr

/-- A cell value.  `null` stands for pandas missing values (None / NaN);
`dt none` stands for a missing datetime (NaT), `dt (some s)` for a concrete
datetime rendered by its ISO-8601 string. -/
inductive Value where
  | null
  | str (s : String)
  | num (q : Rat)
  | dt (iso : Option String)
  | geom (g : Geom)
deriving DecidableEq, Repr

/-- A dataframe row: column label to value, in column order. -/
abbrev Row := List (String × Value)

/-- Lookup of a column value in a row (first matching label, as in a
pandas row indexed by a unique label). -/
def Row.getVal : Row → String → Option Value
  | [], _ => none
  | (k, v) :: tl, c => if k = c then some v else Row.getVal tl c

/-- A dataframe: an ordered list of column labels plus the rows. -/
structure DataFrame where
  cols : List String
  rows : List Row
deriving DecidableEq, Repr

/-- A dataframe is well formed when every row carries exactly the declared
columns in order, as a pandas dataframe does. -/
def DataFrame.WF (df : DataFrame) : Prop :=
  ∀ r ∈ df.rows, r.map Prod.fst = df.cols

/-- pandas-style missing test (`pd.isna`): NaN / None / NaT. -/
def Value.isNA : Value → Bool
  | .null => true
  | .dt none => true
  | _ => false

/-! ## Asset transformer: process_assets

The source stages, in order: filter on the 14-category allow-list,
rename columns by the fixed mapping, reorder to exactly the mapped
columns, drop rows with missing coordinates, keep rows inside the BC
bounding box, build point geometry from (longitude, latitude), and
convert object-typed columns to strings. -/

/-- The fixed category allow-list (source list `cats`). -/
def cats : List String := [
  "Grounds",
  "Furniture and Amenities",
  "Signs",
  "Water Service",
  "Transportation",
  "Stormwater",
  "Bridges",
  "Structures",
  "Trails",
  "Buildings",
  "Electrical Telcomm Service",
  "Wastewater Service",
  "Water Management",
  "Fuel Storage"]

/-- The fixed rename mapping (source dict `ast_cols`), in declared order. -/
def ast_cols : List (String × String) := [
  ("assetid", "Asset ID"),
  ("gisid", "GIS ID"),
  ("park", "Park"),
  ("park_subarea", "Park Subarea"),
  ("asset_category", "Category - Classification"),
  ("asset_type", "Segment - Sub Classification"),
  ("description", "Description"),
  ("campsite_number", "Campsite Number"),
  ("name", "Name"),
  ("accessible", "acs Is Asset Accessible"),
  ("route_accessible", "acs Is the Route to the Asset Accessible"),
  ("gis_latitude", "GIS Latitude"),
  ("gis_longitude", "GIS Longitude")]

/-- The target column set, in the declared order of the mapping. -/
def astTargets : List String := ast_cols.map (fun p => p.2)

/-- `df.rename(columns=m)`: a label is replaced when it is a key of the
mapping and kept otherwise. -/
def renameKey (m : List (String × String)) (c : String) : String :=
  match m.find? (fun q => q.1 = c) with
  | some q => q.2
  | none => c

/-- Renaming at the row level: relabel every entry, keep the values. -/
def renameRow (m : List (String × String)) (r : Row) : Row :=
  r.map (fun p => (renameKey m p.1, p.2))

/-- `df.rename(columns=m)` on a dataframe. -/
def renameDF (m : List (String × String)) (df : DataFrame) : DataFrame :=
  { cols := df.cols.map (renameKey m), rows := df.rows.map (renameRow m) }

/-- Row filter of `df[df["asset_category"].isin(cats)]`: the value must be
a string belonging to the allow-list (missing or non-string values never
match `isin`). -/
def srcCatOK (r : Row) : Bool :=
  match Row.getVal r "asset_category" with
  | some (.str s) => cats.contains s
  | _ => false

/-- `df[df["asset_category"].isin(cats)]`; a KeyError when the column is
absent. -/
def filterCategories (df : DataFrame) : Except String DataFrame :=
  if df.cols.contains "asset_category" then
    .ok { df with rows := df.rows.filter srcCatOK }
  else
    .error "KeyError: asset_category"

/-- Column selection at the row level (`df[cs]` reindexes every row to the
labels `cs`, in that order). -/
def selectRow (cs : List String) (r : Row) : Row :=
  cs.map (fun c => (c, (Row.getVal r c).getD .null))

/-- `df[cs]`: a KeyError when one of the requested labels is absent. -/
def selectDF (cs : List String) (df : DataFrame) : Except String DataFrame :=
  if cs.all (fun c => df.cols.contains c) then
    .ok { cols := cs, rows := df.rows.map (selectRow cs) }
  else
    .error "KeyError: columns not in index"

/-- Row predicate of `df.dropna(subset)`: the value at the label exists and
is not missing. -/
def notNAat (r : Row) (c : String) : Bool :=
  match Row.getVal r c with
  | some v => !(Value.isNA v)
  | none => false

/-- `df.dropna(subset=sub)`: a KeyError when a subset label is absent. -/
def dropnaDF (sub : List String) (df : DataFrame) : Except String DataFrame :=
  if sub.all (fun c => df.cols.contains c) then
    .ok { df with rows := df.rows.filter (fun r => sub.all (notNAat r)) }
  else
    .error "KeyError: dropna subset"

/-- Row predicate of the chained comparisons
`(df[c] >= lo) & (df[c] <= hi)`: the value is a number inside the range. -/
def numInRange (r : Row) (c : String) (lo hi : Rat) : Bool :=
  match Row.getVal r c with
  | some (.num q) => decide (lo ≤ q) && decide (q ≤ hi)
  | _ => false

/-- The British Columbia bounding-box filter (source lines 358-365). -/
def bcBoxFilter (latcol loncol : String) (df : DataFrame) : Except String DataFrame :=
  if df.cols.contains latcol && df.cols.contains loncol then
    .ok { df with rows := df.rows.filter (fun r =>
            numInRange r latcol 47 60 && numInRange r loncol (-145) (-113)) }
  else
    .error "KeyError: coordinate columns"

/-- Whether a row holds a number at a label
(`gpd.points_from_xy` needs numeric inputs). -/
def hasNumAt (r : Row) (c : String) : Bool :=
  match Row.getVal r c with
  | some (.num _) => true
  | _ => false

/-- Point value read off a row; total thanks to the guard in
`addGeometry`. -/
def pointOfRow (latcol loncol : String) (r : Row) : Geom :=
  match Row.getVal r loncol, Row.getVal r latcol with
  | some (.num lo), some (.num la) => .point lo la
  | _, _ => .point 0 0

/-- `gpd.GeoDataFrame(df, geometry=gpd.points_from_xy(df[loncol], df[latcol]))`:
appends a geometry column of points; a TypeError when a coordinate cell is
not numeric. -/
def addGeometry (latcol loncol : String) (df : DataFrame) : Except String DataFrame :=
  if df.rows.all (fun r => hasNumAt r latcol && hasNumAt r loncol) then
    .ok { cols := df.cols ++ ["geometry"],
          rows := df.rows.map (fun r =>
            r ++ [("geometry", Value.geom (pointOfRow latcol loncol r))]) }
  else
    .error "TypeError: points_from_xy expects numeric coordinates"

/-- A column has pandas dtype object exactly when it holds some string cell
(numeric, datetime and geometry columns keep their own dtypes). -/
def isObjectColumn (df : DataFrame) (c : String) : Bool :=
  df.rows.any (fun r =>
    match Row.getVal r c with
    | some (.str _) => true
    | _ => false)

/-- Python `str()` on a cell of an object column.  Strings are unchanged;
missing values render as their Python text form. -/
def pyStr : Value → Value
  | .str s => .str s
  | .null => .str "None"
  | .num q => .str (toString q)
  | .dt none => .str "NaT"
  | .dt (some s) => .str s
  | .geom g => .geom g

/-- `gdf.astype({col: "str" for col in object columns})`. -/
def astypeStrObjects (df : DataFrame) : DataFrame :=
  let objs := df.cols.filter (isObjectColumn df)
  { df with rows := df.rows.map (fun r =>
      r.map (fun p => (p.1, if objs.contains p.1 then pyStr p.2 else p.2))) }

/-- The asset transformer `process_assets(df, latcol, loncol)`:
category filter, rename, reorder, dropna on coordinates, BC bounding box,
point geometry, object-to-string coercion. -/
def process_assets (df : DataFrame) (latcol loncol : String) : Except String DataFrame :=
  match filterCategories df with
  | .error e => .error e
  | .ok df1 =>
    match selectDF astTargets (renameDF ast_cols df1) with
    | .error e => .error e
    | .ok df3 =>
      match dropnaDF [latcol, loncol] df3 with
      | .error e => .error e
      | .ok df4 =>
        match bcBoxFilter latcol loncol df4 with
        | .error e => .error e
        | .ok df5 =>
          match addGeometry latcol loncol df5 with
          | .error e => .error e
          | .ok df6 => .ok (astypeStrObjects df6)

/-! ## Publisher: AGOManager and the content store

`publish_feature_layer` first normalizes the dataframe
(cell-wise fillna with the empty string, replace of the literal string
"None" by the empty string), converts it to a GeoJSON
FeatureCollection, then performs a search / force-delete / add cycle on the
AGO content store.  The store is modelled as the list of live items. -/

/-- Cell-wise `fillna` with the empty string. -/
def fillnaCell (v : Value) : Value :=
  if v.isNA then .str "" else v

/-- `gdf.replace("None", "")` on one cell. -/
def replaceNoneCell (v : Value) : Value :=
  if v = .str "None" then .str "" else v

/-- The dataframe preprocessing of `publish_feature_layer`
(source lines 161-162), applied cell-wise. -/
def publishPreprocessRow (r : Row) : Row :=
  r.map (fun p => (p.1, replaceNoneCell (fillnaCell p.2)))

/-- A GeoJSON geometry dictionary (the `__geo_interface__` of a shapely
geometry): a type tag and coordinates. -/
structure GeoJSONGeometry where
  gtype : String
  coordinates : List (Rat × Rat)
deriving DecidableEq, Repr

/-- `geom.__geo_interface__`. -/
def geoInterface : Geom → GeoJSONGeometry
  | .point lon lat => { gtype := "Point", coordinates := [(lon, lat)] }
  | .lineString cs => { gtype := "LineString", coordinates := cs }

/-- Re-parsing a GeoJSON geometry dictionary back into a geometry. -/
def parseGeoJSONGeometry (g : GeoJSONGeometry) : Option Geom :=
  match g.gtype, g.coordinates with
  | "Point", [(lon, lat)] => some (.point lon lat)
  | "Point", _ => none
  | "LineString", cs => some (.lineString cs)
  | _, _ => none

/-- Property serialization in `_gdf_to_geojson`: datetime values become
their ISO-8601 string, an empty string when missing; every other value is
kept as is. -/
def serializeProperty : Value → Value
  | .dt (some s) => .str s
  | .dt none => .str ""
  | v => v

/-- A GeoJSON Feature: properties (in column order) plus a geometry
dictionary. -/
structure Feature where
  properties : List (String × Value)
  geometry : GeoJSONGeometry
deriving DecidableEq, Repr

/-- One iteration of the row loop of `_gdf_to_geojson`: the geometry comes
from the geometry column, the properties from every other column.  Fails
when the row has no geometry object (taking the geo interface of the
geometry cell would raise). -/
def featureOfRow (r : Row) : Except String Feature :=
  match Row.getVal r "geometry" with
  | some (.geom g) =>
    .ok { properties := (r.filter (fun p => p.1 ≠ "geometry")).map
            (fun p => (p.1, serializeProperty p.2)),
          geometry := geoInterface g }
  | _ => .error "AttributeError: no geo interface"

/-- The normal form that publish preprocessing plus feature serialization
give a cell: missing values and the literal string None collapse to the
empty string, datetimes to their ISO string, everything else is kept. -/
def normalizeValue : Value → Value
  | .null => .str ""
  | .dt none => .str ""
  | .dt (some s) => .str s
  | .str s => if s = "None" then .str "" else .str s
  | v => v

/-- A live AGO content item. -/
structure AGOItem where
  title : String
  itemType : String
  owner : String
  data : String
deriving DecidableEq, Repr

/-- The AGO content store: the list of live items. -/
abbrev ContentStore := List AGOItem

/-- The items `publish_feature_layer` targets for deletion: type GeoJson,
exact title, owned by the current user. -/
def itemMatches (title user : String) (it : AGOItem) : Bool :=
  (it.itemType == "GeoJson") && (it.owner == user) && (it.title == title)

/-- `gis.content.search(title-and-owner query, item_type="GeoJson")`:
the store items of type GeoJson owned by the user whose title matches. -/
def searchGeoJsonItems (store : ContentStore) (title user : String) : ContentStore :=
  store.filter (fun it =>
    (it.itemType == "GeoJson") && (it.owner == user) && (it.title == title))

/-- The content-store effect of `publish_feature_layer` (source lines
167-191): search for same-titled GeoJson items of the current user, filter
to exact title matches, force-delete each one that is of type GeoJson, then
add the freshly built GeoJSON item. -/
def publishContentUpdate (store : ContentStore) (title user data : String) : ContentStore :=
  let existing := searchGeoJsonItems store title user
  let existing := existing.filter (fun it => it.title == title)
  let remaining := store.filter (fun it =>
    !(existing.contains it && (it.itemType == "GeoJson")))
  remaining ++ [{ title := title, itemType := "GeoJson", owner := user, data := data }]

/-! ## Main publish phase (source lines 483-515)

Both publish calls sit in one try block: an exception in the assets
publish is re-raised and the trails publish never runs, while an empty
dataset only logs an error and falls through to the next dataset. -/

/-- Title literal of the assets feature layer. -/
def assetTitle : String := "PARC_L1G_Park_Asset_Data_Feature_Layer_v2"

/-- Title literal of the trails feature layer. -/
def trailTitle : String := "PARC_L1G_Park_Trail_Data_Feature_Layer_v2"

/-- Error log line for an empty assets dataset. -/
def assetsEmptyMsg : String := "..Assets dataset is empty. AGO update aborted!"

/-- Error log line for an empty trails dataset. -/
def trailsEmptyMsg : String := "..Trails dataset is empty. AGO update aborted!"

/-- The publish phase of the main block, abstracted over the publisher
call (which may fail).  Returns the error log lines and either the final
store or the re-raised wrapped exception. -/
def mainPublishPhase (pub : String → ContentStore → Except String ContentStore)
    (astRows trlRows : Nat) (store : ContentStore) :
    List String × Except String ContentStore :=
  if astRows > 0 then
    match pub assetTitle store with
    | .ok s1 =>
      if trlRows > 0 then
        match pub trailTitle s1 with
        | .ok s2 => ([], .ok s2)
        | .error e => ([], .error ("Error occurred: " ++ e))
      else ([trailsEmptyMsg], .ok s1)
    | .error e => ([], .error ("Error occurred: " ++ e))
  else
    if trlRows > 0 then
      match pub trailTitle store with
      | .ok s2 => ([assetsEmptyMsg], .ok s2)
      | .error e => ([assetsEmptyMsg], .error ("Error occurred: " ++ e))
    else ([assetsEmptyMsg, trailsEmptyMsg], .ok store)

/-! ## Asset reader: read_assets (source lines 215-287)

The reader lists the tables of the `assets` schema, excludes
`qgis_projects`, and for each remaining table runs a query that projects
all columns plus WGS84 latitude/longitude derived from the geometry
(centroid first for the linear tables `trails` and `roads`), drops the raw
geometry column, and keeps in `df` the concatenation of everything read so
far.  PostGIS functions are modelled as oracle fields. -/

/-- The PostGIS functions the queries invoke, as oracles. -/
structure PostGIS where
  stTransformWGS84 : Geom → Geom
  stCentroid : Geom → Geom
  stX : Geom → Rat
  stY : Geom → Rat

/-- A table of the assets schema. -/
structure PGTable where
  name : String
  cols : List String
  rows : List Row
deriving DecidableEq, Repr

/-- The data tables: every table of the schema except `qgis_projects`. -/
def assetsSchemaTables (db : List PGTable) : List PGTable :=
  db.filter (fun t => t.name ≠ "qgis_projects")

/-- Whether a row carries a geometry object under `wkb_geometry`. -/
def hasGeomAt (r : Row) : Bool :=
  match Row.getVal r "wkb_geometry" with
  | some (.geom _) => true
  | _ => false

/-- Geometry read off a row; total thanks to the guard in
`queryAssetTable`. -/
def geomOfRow (r : Row) : Geom :=
  match Row.getVal r "wkb_geometry" with
  | some (.geom g) => g
  | _ => .point 0 0

/-- The per-table query of `read_assets` followed by the drop of the
raw wkb_geometry column: every column except the raw geometry,
plus `gis_latitude` and `gis_longitude` reprojected into WGS84 — from the
centroid for the linear tables `trails` and `roads`, from the geometry
itself otherwise.  Fails when a row has no geometry (the PostGIS calls
would error). -/
def queryAssetTable (pg : PostGIS) (t : PGTable) : Except String DataFrame :=
  let useCentroid : Bool := (t.name == "trails") || (t.name == "roads")
  if t.rows.all hasGeomAt then
    .ok { cols := (t.cols.filter (fun c => c ≠ "wkb_geometry")) ++
                    ["gis_latitude", "gis_longitude"],
          rows := t.rows.map (fun r =>
            let g4326 :=
              if useCentroid then pg.stTransformWGS84 (pg.stCentroid (geomOfRow r))
              else pg.stTransformWGS84 (geomOfRow r)
            (r.filter (fun p => p.1 ≠ "wkb_geometry")) ++
              [("gis_latitude", Value.num (pg.stY g4326)),
               ("gis_longitude", Value.num (pg.stX g4326))]) }
  else
    .error "ProgrammingError: geometry function on non-geometry"

/-- Python dict insertion (`assets_dict[table_name] = df`): overwrite in
place when the key exists, append otherwise. -/
def dictInsert (d : List (String × DataFrame)) (k : String) (v : DataFrame) :
    List (String × DataFrame) :=
  if d.any (fun p => p.1 == k) then
    d.map (fun p => if p.1 == k then (k, v) else p)
  else
    d ++ [(k, v)]

/-- Column union in order of first appearance, as `pd.concat` aligns
columns with `sort=False`. -/
def unionCols (css : List (List String)) : List String :=
  css.foldl (fun acc cs => acc ++ cs.filter (fun c => !(acc.contains c))) []

/-- Reindex a row to a column list, filling the missing labels with NaN. -/
def reindexRow (cs : List String) (r : Row) : Row :=
  cs.map (fun c => (c, (Row.getVal r c).getD .null))

/-- `pd.concat(dfs, ignore_index=True)`: align every frame on the union of
the columns (null-filled) and stack the rows. -/
def concatDFs (dfs : List DataFrame) : DataFrame :=
  let cs := unionCols (dfs.map (fun d => d.cols))
  { cols := cs,
    rows := dfs.flatMap (fun d => d.rows.map (reindexRow cs)) }

/-- One iteration of the table loop of `read_assets`: read the table,
store it in the dict, and rebind `df` to the concatenation of the dict
values so far. -/
def readAssetsStep (pg : PostGIS)
    (st : List (String × DataFrame) × Option DataFrame) (t : PGTable) :
    Except String (List (String × DataFrame) × Option DataFrame) :=
  match queryAssetTable pg t with
  | .error e => .error e
  | .ok dft =>
    let dict := dictInsert st.1 t.name dft
    .ok (dict, some (concatDFs (dict.map (fun p => p.2))))

/-- `read_assets(conn)`: loop over the data tables; the local `df` is only
ever bound inside the loop, so an empty table list leaves it unbound and
the final `return df` raises. -/
def read_assets (pg : PostGIS) (db : List PGTable) : Except String DataFrame :=
  match (assetsSchemaTables db).foldlM (readAssetsStep pg) ([], none) with
  | .error e => .error e
  | .ok (_, some df) => .ok df
  | .ok (_, none) => .error "UnboundLocalError: local variable df referenced before assignment"

/-! ## Database connector: PostgresDBManager (source lines 40-101)

The driver calls are oracles: `psycopg2.connect` either yields a handle or
raises, `connection.close` either returns or raises.  In the psycopg2
exception hierarchy both `OperationalError` and `ProgrammingError` are
subclasses of `DatabaseError`; `connect` catches only the former, while
`disconnect` catches the whole `DatabaseError` family. -/

/-- psycopg2 exceptions the workflow can meet, all in the `DatabaseError`
family. -/
inductive PgErr where
  | operationalError (msg : String)
  | programmingError (msg : String)
deriving DecidableEq, Repr

/-- The message carried by a driver exception. -/
def PgErr.message : PgErr → String
  | .operationalError m => m
  | .programmingError m => m

/-- Whether the exception is an `OperationalError`. -/
def PgErr.isOperationalError : PgErr → Bool
  | .operationalError _ => true
  | _ => false

/-- Whether the exception is in the `DatabaseError` family — true of both
constructors, mirroring the psycopg2 class hierarchy. -/
def PgErr.isDatabaseError : PgErr → Bool
  | _ => true

/-- The mutable fields of `PostgresDBManager` the claims are about. -/
structure PgState where
  connection : Option Nat
  cursor : Option Nat
deriving DecidableEq, Repr

/-- `PostgresDBManager.connect`, given the driver outcome: on success the
handle is stored, logged and returned; an `OperationalError` is logged
and the method falls through returning None with the handle cleared; any
other driver exception propagates (the assignment never ran, so the state
is untouched). -/
def pgConnect (st : PgState) (driver : Except PgErr Nat) :
    PgState × List String × Except PgErr (Option Nat) :=
  match driver with
  | .ok c =>
    ({ st with connection := some c },
     ["..Postgres connection established successfully."],
     .ok (some c))
  | .error e =>
    if e.isOperationalError then
      ({ st with connection := none },
       ["..error connecting to database: " ++ e.message],
       .ok none)
    else
      (st, [], .error e)

/-- `PostgresDBManager.disconnect`, given the outcome of
`connection.close`: with an active connection, close is attempted, a
`DatabaseError` is caught and logged, and the finally block always clears
both handles; without one only a warning is logged. -/
def pgDisconnect (st : PgState) (closeResult : Except PgErr Unit) :
    PgState × List String × Except PgErr Unit :=
  match st.connection with
  | some _ =>
    match closeResult with
    | .ok _ =>
      ({ connection := none, cursor := none }, ["Postgres connection closed."], .ok ())
    | .error e =>
      if e.isDatabaseError then
        ({ connection := none, cursor := none },
         ["Error closing connection: " ++ e.message], .ok ())
      else
        ({ connection := none, cursor := none }, [], .error e)
  | none => (st, ["..no active database connection to close."], .ok ())

/-- The session handle of `AGOManager`. -/
structure AgoState where
  gis : Option String
deriving DecidableEq, Repr

/-- `AGOManager.disconnect`: clear the session handle when present,
otherwise only warn.  It never raises. -/
def agoDisconnect (st : AgoState) : AgoState × List String :=
  match st.gis with
  | some _ => ({ gis := none }, ["Disconnected from AGOL"])
  | none => (st, ["No active AGOL connection to disconnect."])

/-! ## Concrete example data used by witnesses and scenarios -/

/-- A full source asset row with the given category and coordinates. -/
def mkAssetRow (cat : String) (lat lon : Value) : Row := [
  ("assetid", .str "A"), ("gisid", .str "G"), ("park", .str "P"),
  ("park_subarea", .str "S"), ("asset_category", .str cat),
  ("asset_type", .str "T"), ("description", .str "D"),
  ("campsite_number", .str "1"), ("name", .str "N"),
  ("accessible", .str "Yes"), ("route_accessible", .str "Yes"),
  ("gis_latitude", lat), ("gis_longitude", lon)]

/-- The source columns of an asset table, in the order of `mkAssetRow`. -/
def srcAssetCols : List String :=
  ["assetid", "gisid", "park", "park_subarea", "asset_category", "asset_type",
   "description", "campsite_number", "name", "accessible", "route_accessible",
   "gis_latitude", "gis_longitude"]

/-- The scenario table of the spec: ten rows, two of category Parking,
eight of category Signs, one Signs row with a null longitude and one with
longitude -200. -/
def exampleDF10 : DataFrame :=
  { cols := srcAssetCols,
    rows := [
      mkAssetRow "Parking" (.num 50) (.num (-120)),
      mkAssetRow "Parking" (.num 51) (.num (-121)),
      mkAssetRow "Signs" (.num 50) .null,
      mkAssetRow "Signs" (.num 50) (.num (-200)),
      mkAssetRow "Signs" (.num 50) (.num (-120)),
      mkAssetRow "Signs" (.num 51) (.num (-121)),
      mkAssetRow "Signs" (.num 52) (.num (-122)),
      mkAssetRow "Signs" (.num 53) (.num (-123)),
      mkAssetRow "Signs" (.num 54) (.num (-124)),
      mkAssetRow "Signs" (.num 55) (.num (-125))] }

/-- The rows of the input that the asset transformer keeps: category in the
allow-list, and, after rename and reorder, coordinates present, numeric and
inside the BC bounding box. -/
def inputGoodRow (latcol loncol : String) (r : Row) : Bool :=
  let r' := selectRow astTargets (renameRow ast_cols r)
  srcCatOK r &&
    (([latcol, loncol].all (notNAat r')) &&
      (numInRange r' latcol 47 60 && numInRange r' loncol (-145) (-113)))

/-- Concrete PostGIS oracle for witnesses: identity reprojection,
head-vertex centroid, coordinate projections off points. -/
def pgOracle : PostGIS := {
  stTransformWGS84 := fun g => g,
  stCentroid := fun g =>
    match g with
    | .point lon lat => .point lon lat
    | .lineString cs => .point ((cs.headD (0, 0)).1) ((cs.headD (0, 0)).2),
  stX := fun g => match g with | .point lon _ => lon | .lineString _ => 0,
  stY := fun g => match g with | .point _ lat => lat | .lineString _ => 0 }

/-- A tiny assets schema holding the excluded table, a point table and a
linear table. -/
def dbExample : List PGTable := [
  { name := "qgis_projects", cols := ["id"], rows := [] },
  { name := "signs", cols := ["assetid", "wkb_geometry"],
    rows := [[("assetid", .str "1"), ("wkb_geometry", .geom (.point (-120) 50))]] },
  { name := "trails", cols := ["assetid", "wkb_geometry"],
    rows := [[("assetid", .str "2"), ("wkb_geometry", .geom (.lineString [(-121, 51)]))]] }]

/-- A schema holding only the excluded non-data table. -/
def dbOnlyQgis : List PGTable := [
  { name := "qgis_projects", cols := ["id"], rows := [] }]

/-- The item that the publish cycle uploads. -/
def newGeoJsonItem (title user data : String) : AGOItem :=
  { title := title, itemType := "GeoJson", owner := user, data := data }

/-- A geometry-bearing row exercising every normalization case: a plain
string, a missing value, the literal string None, a concrete datetime and
a missing datetime. -/
def rowExample : Row := [
  ("Park", .str "Golden Ears"),
  ("Description", .null),
  ("Name", .str "None"),
  ("Installed", .dt (some "2024-11-18T00:00:00")),
  ("Retired", .dt none),
  ("Campsite Number", .num 7),
  ("geometry", .geom (.point (-122) 49))]

/-! ## Basic row lemmas -/

theorem Row.getVal_cons (k : String) (v : Value) (tl : Row) (c : String) :
    Row.getVal ((k, v) :: tl) c = if k = c then some v else Row.getVal tl c := rfl

theorem Row.getVal_append_of_isSome (r₁ r₂ : Row) (c : String) (v : Value)
    (h : Row.getVal r₁ c = some v) : Row.getVal (r₁ ++ r₂) c = some v := by
  induction r₁ with
  | nil => simp [Row.getVal] at h
  | cons p tl ih =>
    obtain ⟨k, w⟩ := p
    rw [List.cons_append, Row.getVal_cons] at *
    by_cases hk : k = c
    · simpa [hk] using h
    · simp only [hk, if_false] at h ⊢
      exact ih h

theorem Row.getVal_map_values (f : String → Value → Value) (r : Row) (c : String) :
    Row.getVal (r.map (fun p => (p.1, f p.1 p.2))) c = (Row.getVal r c).map (f c) := by
  induction r with
  | nil => simp [Row.getVal]
  | cons p tl ih =>
    obtain ⟨k, w⟩ := p
    by_cases hk : k = c
    · simp [Row.getVal, hk]
    · simpa [Row.getVal, hk] using ih

/-! ## Claim C2: the ten-row scenario -/

/-- C2: on the scenario table of 10 rows — 2 rows of category Parking (not
in the allow-list), 8 rows of category Signs (in the allow-list), of which
one has a null longitude and one has longitude -200 — process_assets
returns exactly 6 rows. -/
theorem processAssets_scenario_ten_rows_yields_six :
    (process_assets exampleDF10 "GIS Latitude" "GIS Longitude").map
      (fun d => d.rows.length) = .ok 6 := rfl

/-! ## Claim C8: connect failure behaviour -/

/-- C8 counterexample: on a driver failure that is not an
OperationalError (psycopg2 raises ProgrammingError, a DatabaseError
sibling, e.g. for an invalid dsn), connect does not log and return null:
the exception propagates and nothing is logged. -/
theorem pgConnect_programmingError_propagates :
    pgConnect { connection := none, cursor := none }
        (.error (.programmingError "invalid dsn")) =
      ({ connection := none, cursor := none }, [],
       .error (.programmingError "invalid dsn")) := rfl

/-- C8 amended: for every OperationalError failure of the driver, connect
logs the error and returns null, leaving the connection handle null,
rather than raising. -/
theorem pgConnect_operationalError_returns_null (st : PgState) (msg : String) :
    pgConnect st (.error (.operationalError msg)) =
      ({ st with connection := none },
       ["..error connecting to database: " ++ msg],
       .ok none) := rfl

/-! ## Claim C9: disconnect idempotence -/

/-- C9: both disconnects never raise, leave the connection/session handle
null, and calling them again from the resulting state changes nothing. -/
theorem disconnect_idempotent_and_safe (st : PgState)
    (r₁ r₂ : Except PgErr Unit) (ag : AgoState) :
    (pgDisconnect st r₁).2.2 = .ok () ∧
    (pgDisconnect st r₁).1.connection = none ∧
    (pgDisconnect (pgDisconnect st r₁).1 r₂).2.2 = .ok () ∧
    (pgDisconnect (pgDisconnect st r₁).1 r₂).1 = (pgDisconnect st r₁).1 ∧
    (agoDisconnect ag).1.gis = none ∧
    (agoDisconnect (agoDisconnect ag).1).1 = (agoDisconnect ag).1 := by
  obtain ⟨conn, cur⟩ := st
  obtain ⟨gis⟩ := ag
  cases conn <;> cases gis <;>
    rcases r₁ with _ | e₁ <;>
    refine ⟨rfl, rfl, ?_, ?_, rfl, rfl⟩ <;>
    rcases r₂ with _ | e₂ <;>
    simp [pgDisconnect, PgErr.isDatabaseError]

/-! ## Claim C10: empty source schema -/

/-- C10: when the schema lists no data table, the local df of read_assets
is never bound and the reader fails with an unbound-local error instead of
returning an empty table. -/
theorem readAssets_empty_schema_unbound_local (pg : PostGIS) (db : List PGTable)
    (h : assetsSchemaTables db = []) :
    read_assets pg db =
      .error "UnboundLocalError: local variable df referenced before assignment" := by
  unfold read_assets
  rw [h]
  rfl

/-- C10 witness: a schema holding only qgis_projects trips the
unbound-local failure. -/
theorem readAssets_empty_schema_unbound_local_witness :
    assetsSchemaTables dbOnlyQgis = [] ∧
    read_assets pgOracle dbOnlyQgis =
      .error "UnboundLocalError: local variable df referenced before assignment" :=
  ⟨rfl, readAssets_empty_schema_unbound_local pgOracle dbOnlyQgis rfl⟩

/-! ## Claim C6: an empty dataset skips its publish step only -/

/-- C6: when either transformed dataset has zero rows, its publish step is
skipped and its empty-dataset error is logged, while the publish of the
other dataset is still attempted and the run result is exactly that other
publish outcome — success when it succeeds, the wrapped re-raise when it
fails.  Clauses one and two: empty assets, trails publish attempted.
Clauses three and four: empty trails, assets publish attempted. -/
theorem emptyAssets_skips_publish_trails_proceed :
    (∀ (pub : String → ContentStore → Except String ContentStore)
        (trlRows : Nat) (store s' : ContentStore),
        0 < trlRows → pub trailTitle store = .ok s' →
        mainPublishPhase pub 0 trlRows store = ([assetsEmptyMsg], .ok s')) ∧
    (∀ (pub : String → ContentStore → Except String ContentStore)
        (trlRows : Nat) (store : ContentStore) (e : String),
        0 < trlRows → pub trailTitle store = .error e →
        mainPublishPhase pub 0 trlRows store =
          ([assetsEmptyMsg], .error ("Error occurred: " ++ e))) ∧
    (∀ (pub : String → ContentStore → Except String ContentStore)
        (astRows : Nat) (store s' : ContentStore),
        0 < astRows → pub assetTitle store = .ok s' →
        mainPublishPhase pub astRows 0 store = ([trailsEmptyMsg], .ok s')) ∧
    (∀ (pub : String → ContentStore → Except String ContentStore)
        (astRows : Nat) (store : ContentStore) (e : String),
        0 < astRows → pub assetTitle store = .error e →
        mainPublishPhase pub astRows 0 store =
          ([], .error ("Error occurred: " ++ e))) := by
  refine ⟨?_, ?_, ?_, ?_⟩
  · intro pub trl store s' h1 h2
    simp [mainPublishPhase, h1, h2]
  · intro pub trl store e h1 h2
    simp [mainPublishPhase, h1, h2]
  · intro pub ast store s' h1 h2
    simp [mainPublishPhase, h1, h2]
  · intro pub ast store e h1 h2
    simp [mainPublishPhase, h1, h2]

/-- C6 witness: concrete runs through the content-store update — zero
asset rows with one trail row, and one asset row with zero trail rows. -/
theorem emptyAssets_skips_publish_trails_proceed_witness :
    mainPublishPhase
        (fun t s => .ok (publishContentUpdate s t "dss_account" "geojson-bytes"))
        0 1 [] =
      ([assetsEmptyMsg],
       .ok [{ title := trailTitle, itemType := "GeoJson",
              owner := "dss_account", data := "geojson-bytes" }]) ∧
    mainPublishPhase
        (fun t s => .ok (publishContentUpdate s t "dss_account" "geojson-bytes"))
        1 0 [] =
      ([trailsEmptyMsg],
       .ok [{ title := assetTitle, itemType := "GeoJson",
              owner := "dss_account", data := "geojson-bytes" }]) :=
  ⟨emptyAssets_skips_publish_trails_proceed.1 _ 1 [] _ (by decide) rfl,
   emptyAssets_skips_publish_trails_proceed.2.2.1 _ 1 [] _ (by decide) rfl⟩

/-! ## Claim C4: publish is idempotent on the content store -/

theorem publishContentUpdate_eq (store : ContentStore) (title user data : String) :
    publishContentUpdate store title user data =
      store.filter (fun it => !(itemMatches title user it)) ++
        [newGeoJsonItem title user data] := by
  simp only [publishContentUpdate, searchGeoJsonItems, newGeoJsonItem, List.filter_filter]
  congr 1
  apply List.filter_congr
  intro it hit
  simp only [List.elem_eq_mem, List.mem_filter, itemMatches]
  rcases hty : it.itemType == "GeoJson" with _ | _ <;>
    rcases how : it.owner == user with _ | _ <;>
    rcases hti : it.title == title with _ | _ <;>
    simp [hit, hty, how, hti]

/-- C4: the publish cycle deletes exactly the GeoJson items with the given
title owned by the current user; it is idempotent on the content store, a
second identical publish leaves exactly one live matching item, items with
another title, type or owner are never deleted, and stale matching items
are gone. -/
theorem publish_idempotent_on_content_store
    (store : ContentStore) (title user data : String) :
    publishContentUpdate (publishContentUpdate store title user data) title user data =
      publishContentUpdate store title user data ∧
    (publishContentUpdate store title user data).countP (itemMatches title user) = 1 ∧
    (∀ it ∈ store, itemMatches title user it = false →
      it ∈ publishContentUpdate store title user data) ∧
    (∀ it ∈ store, itemMatches title user it = true → it.data ≠ data →
      it ∉ publishContentUpdate store title user data) := by
  have hnew : itemMatches title user (newGeoJsonItem title user data) = true := by
    simp [itemMatches, newGeoJsonItem]
  refine ⟨?_, ?_, ?_, ?_⟩
  · rw [publishContentUpdate_eq store, publishContentUpdate_eq]
    rw [List.filter_append, List.filter_filter]
    have h1 : List.filter (fun it => !(itemMatches title user it))
        [newGeoJsonItem title user data] = [] := by
      simp [hnew]
    rw [h1, List.append_nil]
    congr 1
    apply List.filter_congr
    intro it _
    cases itemMatches title user it <;> rfl
  · rw [publishContentUpdate_eq, List.countP_append]
    have h0 : (store.filter (fun it => !(itemMatches title user it))).countP
        (itemMatches title user) = 0 := by
      rw [List.countP_eq_zero]
      intro it hmem
      rw [List.mem_filter] at hmem
      simp only [Bool.not_eq_eq_eq_not, Bool.not_true] at hmem
      simp [hmem.2]
    rw [h0, List.countP_singleton]
    simp [hnew]
  · intro it hmem hno
    rw [publishContentUpdate_eq]
    exact List.mem_append_left _ (List.mem_filter.2 ⟨hmem, by simp [hno]⟩)
  · intro it hmem hyes hdata
    rw [publishContentUpdate_eq]
    intro hcontra
    rcases List.mem_append.1 hcontra with hl | hr
    · rw [List.mem_filter] at hl
      rw [hyes] at hl
      simp at hl
    · rw [List.mem_singleton] at hr
      apply hdata
      rw [hr]
      rfl

/-- C4 witness: a store with one stale matching GeoJson item and one
unrelated item — the cycle is idempotent, one live matching item remains,
the unrelated item survives and the stale item is gone. -/
theorem publish_idempotent_on_content_store_witness :
    (publishContentUpdate
        (publishContentUpdate
          [{ title := assetTitle, itemType := "GeoJson", owner := "dss", data := "old" },
           { title := "Other layer", itemType := "Feature Service", owner := "dss", data := "x" }]
          assetTitle "dss" "new")
        assetTitle "dss" "new" =
      publishContentUpdate
        [{ title := assetTitle, itemType := "GeoJson", owner := "dss", data := "old" },
         { title := "Other layer", itemType := "Feature Service", owner := "dss", data := "x" }]
        assetTitle "dss" "new") ∧
    (publishContentUpdate
        [{ title := assetTitle, itemType := "GeoJson", owner := "dss", data := "old" },
         { title := "Other layer", itemType := "Feature Service", owner := "dss", data := "x" }]
        assetTitle "dss" "new").countP (itemMatches assetTitle "dss") = 1 ∧
    ({ title := "Other layer", itemType := "Feature Service", owner := "dss", data := "x" } : AGOItem) ∈
      publishContentUpdate
        [{ title := assetTitle, itemType := "GeoJson", owner := "dss", data := "old" },
         { title := "Other layer", itemType := "Feature Service", owner := "dss", data := "x" }]
        assetTitle "dss" "new" ∧
    ({ title := assetTitle, itemType := "GeoJson", owner := "dss", data := "old" } : AGOItem) ∉
      publishContentUpdate
        [{ title := assetTitle, itemType := "GeoJson", owner := "dss", data := "old" },
         { title := "Other layer", itemType := "Feature Service", owner := "dss", data := "x" }]
        assetTitle "dss" "new" := by
  have h := publish_idempotent_on_content_store
    [{ title := assetTitle, itemType := "GeoJson", owner := "dss", data := "old" },
     { title := "Other layer", itemType := "Feature Service", owner := "dss", data := "x" }]
    assetTitle "dss" "new"
  exact ⟨h.1, h.2.1,
    h.2.2.1 _ (by decide) (by decide),
    h.2.2.2 _ (by decide) (by decide) (by decide)⟩

/-! ## Claim C5: GeoJSON feature round trip -/

theorem Row.getVal_map_snd (f : Value → Value) (r : Row) (c : String) :
    Row.getVal (r.map (fun p => (p.1, f p.2))) c = (Row.getVal r c).map f := by
  induction r with
  | nil => simp [Row.getVal]
  | cons p tl ih =>
    obtain ⟨k, w⟩ := p
    by_cases hk : k = c
    · simp [Row.getVal, hk]
    · simpa [Row.getVal, hk] using ih

theorem serialize_preprocess (v : Value) :
    serializeProperty (replaceNoneCell (fillnaCell v)) = normalizeValue v := by
  cases v with
  | null => rfl
  | str s =>
    by_cases hs : s = "None" <;>
      simp [fillnaCell, replaceNoneCell, serializeProperty, normalizeValue,
            Value.isNA, hs]
  | num q => rfl
  | dt o => cases o <;> rfl
  | geom g => rfl

/-- C5: for every geometry-bearing row, the feature built after the
publish preprocessing (missing values and the literal string None replaced
by the empty string) carries exactly the original non-geometry fields
normalized cell-wise — nulls to empty strings, datetimes to their ISO
strings — and a geometry dictionary that re-parses to the original
geometry with the same coordinates. -/
theorem feature_roundtrip (r : Row) (g : Geom)
    (hg : Row.getVal r "geometry" = some (.geom g))
    (_hkeys : (r.map Prod.fst).Nodup) :
    featureOfRow (publishPreprocessRow r) = .ok
      { properties := (r.filter (fun p => p.1 ≠ "geometry")).map
          (fun p => (p.1, normalizeValue p.2)),
        geometry := geoInterface g } ∧
    parseGeoJSONGeometry (geoInterface g) = some g := by
  constructor
  · have hg2 : Row.getVal (publishPreprocessRow r) "geometry" = some (.geom g) := by
      unfold publishPreprocessRow
      rw [Row.getVal_map_snd (fun v => replaceNoneCell (fillnaCell v)) r "geometry", hg]
      rfl
    simp only [featureOfRow, hg2]
    congr 1
    congr 1
    unfold publishPreprocessRow
    rw [List.filter_map]
    have hcomp : ((fun p => decide (p.1 ≠ "geometry")) ∘
        (fun p : String × Value => (p.1, replaceNoneCell (fillnaCell p.2)))) =
        (fun p : String × Value => decide (p.1 ≠ "geometry")) := rfl
    rw [hcomp, List.map_map]
    apply List.map_congr_left
    intro p _
    simp [Function.comp, serialize_preprocess]
  · cases g <;> rfl

/-- C5 witness: the round trip on a concrete row holding a string, a
missing value, a literal None string, a concrete datetime, a missing
datetime, a number and a point geometry. -/
theorem feature_roundtrip_witness :
    featureOfRow (publishPreprocessRow rowExample) = .ok
      { properties := [
          ("Park", .str "Golden Ears"),
          ("Description", .str ""),
          ("Name", .str ""),
          ("Installed", .str "2024-11-18T00:00:00"),
          ("Retired", .str ""),
          ("Campsite Number", .num 7)],
        geometry := { gtype := "Point", coordinates := [(-122, 49)] } } ∧
    parseGeoJSONGeometry { gtype := "Point", coordinates := [(-122, 49)] } =
      some (.point (-122) 49) :=
  feature_roundtrip rowExample (.point (-122) 49) rfl (by decide)

/-! ## Stage inversion lemmas for process_assets -/

theorem map_fst_astypeRow (objs : List String) (l : Row) :
    (l.map (fun p => (p.1, if objs.contains p.1 then pyStr p.2 else p.2))).map Prod.fst
      = l.map Prod.fst := by
  rw [List.map_map]
  rfl

theorem filterCategories_ok {df d : DataFrame} (h : filterCategories df = .ok d) :
    df.cols.contains "asset_category" = true ∧ d.cols = df.cols ∧
    d.rows = df.rows.filter srcCatOK := by
  unfold filterCategories at h
  split at h
  · rename_i hg
    simp only [Except.ok.injEq] at h
    subst h
    exact ⟨hg, rfl, rfl⟩
  · exact Except.noConfusion h

theorem selectDF_ok {cs : List String} {df d : DataFrame} (h : selectDF cs df = .ok d) :
    cs.all (fun c => df.cols.contains c) = true ∧ d.cols = cs ∧
    d.rows = df.rows.map (selectRow cs) := by
  unfold selectDF at h
  split at h
  · rename_i hg
    simp only [Except.ok.injEq] at h
    subst h
    exact ⟨hg, rfl, rfl⟩
  · exact Except.noConfusion h

theorem dropnaDF_ok {sub : List String} {df d : DataFrame} (h : dropnaDF sub df = .ok d) :
    sub.all (fun c => df.cols.contains c) = true ∧ d.cols = df.cols ∧
    d.rows = df.rows.filter (fun r => sub.all (notNAat r)) := by
  unfold dropnaDF at h
  split at h
  · rename_i hg
    simp only [Except.ok.injEq] at h
    subst h
    exact ⟨hg, rfl, rfl⟩
  · exact Except.noConfusion h

theorem bcBoxFilter_ok {latcol loncol : String} {df d : DataFrame}
    (h : bcBoxFilter latcol loncol df = .ok d) :
    d.cols = df.cols ∧
    d.rows = df.rows.filter (fun r =>
      numInRange r latcol 47 60 && numInRange r loncol (-145) (-113)) := by
  unfold bcBoxFilter at h
  split at h
  · simp only [Except.ok.injEq] at h
    subst h
    exact ⟨rfl, rfl⟩
  · exact Except.noConfusion h

theorem addGeometry_ok {latcol loncol : String} {df d : DataFrame}
    (h : addGeometry latcol loncol df = .ok d) :
    df.rows.all (fun r => hasNumAt r latcol && hasNumAt r loncol) = true ∧
    d.cols = df.cols ++ ["geometry"] ∧
    d.rows = df.rows.map (fun r =>
      r ++ [("geometry", Value.geom (pointOfRow latcol loncol r))]) := by
  unfold addGeometry at h
  split at h
  · rename_i hg
    simp only [Except.ok.injEq] at h
    subst h
    exact ⟨hg, rfl, rfl⟩
  · exact Except.noConfusion h

theorem process_assets_ok {df : DataFrame} {latcol loncol : String} {out : DataFrame}
    (h : process_assets df latcol loncol = .ok out) :
    ∃ df1 df3 df4 df5 df6,
      filterCategories df = .ok df1 ∧
      selectDF astTargets (renameDF ast_cols df1) = .ok df3 ∧
      dropnaDF [latcol, loncol] df3 = .ok df4 ∧
      bcBoxFilter latcol loncol df4 = .ok df5 ∧
      addGeometry latcol loncol df5 = .ok df6 ∧
      out = astypeStrObjects df6 := by
  unfold process_assets at h
  split at h
  · exact Except.noConfusion h
  rename_i df1 h1
  split at h
  · exact Except.noConfusion h
  rename_i df3 h2
  split at h
  · exact Except.noConfusion h
  rename_i df4 h3
  split at h
  · exact Except.noConfusion h
  rename_i df5 h4
  split at h
  · exact Except.noConfusion h
  rename_i df6 h5
  simp only [Except.ok.injEq] at h
  exact ⟨df1, df3, df4, df5, df6, h1, h2, h3, h4, h5, h.symm⟩

/-! ## Claim C3: output columns are exactly the mapped set plus geometry -/

/-- C3: whenever process_assets succeeds, the output columns are exactly
the value set of the fixed rename mapping in its declared order followed
by the geometry column, and every output row carries exactly those labels —
any input column outside the mapping is discarded. -/
theorem processAssets_columns (df : DataFrame) (latcol loncol : String)
    (out : DataFrame) (h : process_assets df latcol loncol = .ok out) :
    out.cols = astTargets ++ ["geometry"] ∧
    ∀ r ∈ out.rows, r.map Prod.fst = astTargets ++ ["geometry"] := by
  obtain ⟨df1, df3, df4, df5, df6, h1, h2, h3, h4, h5, hout⟩ := process_assets_ok h
  obtain ⟨_, hc3, hr3⟩ := selectDF_ok h2
  obtain ⟨_, hc4, hr4⟩ := dropnaDF_ok h3
  obtain ⟨hc5, hr5⟩ := bcBoxFilter_ok h4
  obtain ⟨_, hc6, hr6⟩ := addGeometry_ok h5
  subst hout
  constructor
  · show df6.cols = astTargets ++ ["geometry"]
    rw [hc6, hc5, hc4, hc3]
  · intro r hr
    simp only [astypeStrObjects, List.mem_map] at hr
    obtain ⟨r6, hr6mem, rfl⟩ := hr
    rw [hr6] at hr6mem
    rw [List.mem_map] at hr6mem
    obtain ⟨r5, hr5mem, rfl⟩ := hr6mem
    rw [hr5] at hr5mem
    rw [List.mem_filter] at hr5mem
    obtain ⟨hr4mem, _⟩ := hr5mem
    rw [hr4] at hr4mem
    rw [List.mem_filter] at hr4mem
    obtain ⟨hr3mem, _⟩ := hr4mem
    rw [hr3] at hr3mem
    rw [List.mem_map] at hr3mem
    obtain ⟨r2, _, rfl⟩ := hr3mem
    rw [map_fst_astypeRow, List.map_append]
    show (selectRow astTargets r2).map Prod.fst ++ ["geometry"] = astTargets ++ ["geometry"]
    congr 1

/-- C3 witness: the scenario table instantiates the column theorem. -/
theorem processAssets_columns_witness :
    ∃ out, process_assets exampleDF10 "GIS Latitude" "GIS Longitude" = .ok out ∧
      out.cols = astTargets ++ ["geometry"] := by
  refine ⟨_, rfl, ?_⟩
  exact (processAssets_columns exampleDF10 "GIS Latitude" "GIS Longitude" _ rfl).1

/-! ## Claim C1: helper lemmas -/

theorem Row.getVal_some_mem_keys {r : Row} {c : String} {v : Value}
    (h : Row.getVal r c = some v) : c ∈ r.map Prod.fst := by
  induction r with
  | nil => simp [Row.getVal] at h
  | cons p tl ih =>
    obtain ⟨k, w⟩ := p
    rw [Row.getVal_cons] at h
    by_cases hk : k = c
    · simp [hk]
    · simp only [hk, if_false] at h
      simp [ih h]

theorem Row.getVal_renameRow (m : List (String × String)) (r : Row) (c : String)
    (v : Value) (hnd : (r.map (fun p => renameKey m p.1)).Nodup)
    (hc : Row.getVal r c = some v) :
    Row.getVal (renameRow m r) (renameKey m c) = some v := by
  induction r with
  | nil => simp [Row.getVal] at hc
  | cons p tl ih =>
    obtain ⟨k, w⟩ := p
    rw [List.map_cons, List.nodup_cons] at hnd
    rw [Row.getVal_cons] at hc
    unfold renameRow
    rw [List.map_cons, Row.getVal_cons]
    by_cases hk : k = c
    · subst hk
      rw [if_pos rfl] at hc
      rw [if_pos rfl]
      exact hc
    · simp only [hk, if_false] at hc
      by_cases hrk : renameKey m k = renameKey m c
      · exfalso
        apply hnd.1
        rw [hrk]
        have hmem : c ∈ tl.map Prod.fst := Row.getVal_some_mem_keys hc
        rw [List.mem_map] at hmem
        obtain ⟨p, hp, hpc⟩ := hmem
        rw [List.mem_map]
        exact ⟨p, hp, by rw [hpc]⟩
      · rw [if_neg hrk]
        exact ih hnd.2 hc

theorem Row.getVal_selectRow (cs : List String) (r : Row) (c : String) :
    Row.getVal (selectRow cs r) c =
      if c ∈ cs then some ((Row.getVal r c).getD .null) else none := by
  induction cs with
  | nil => simp [selectRow, Row.getVal]
  | cons c' tl ih =>
    unfold selectRow at ih ⊢
    rw [List.map_cons, Row.getVal_cons]
    by_cases hc : c' = c
    · subst hc
      simp
    · rw [if_neg hc, ih]
      by_cases hmem : c ∈ tl
      · rw [if_pos hmem, if_pos (List.mem_cons_of_mem _ hmem)]
      · rw [if_neg hmem, if_neg ?_]
        intro h
        rcases List.mem_cons.1 h with h1 | h2
        · exact hc h1.symm
        · exact hmem h2

theorem numInRange_ok {r : Row} {c : String} {lo hi : Rat}
    (h : numInRange r c lo hi = true) :
    ∃ q, Row.getVal r c = some (.num q) ∧ lo ≤ q ∧ q ≤ hi := by
  unfold numInRange at h
  split at h
  · rename_i q heq
    rw [Bool.and_eq_true, decide_eq_true_iff, decide_eq_true_iff] at h
    exact ⟨q, heq, h.1, h.2⟩
  · exact Bool.noConfusion h

theorem srcCatOK_ok {r : Row} (h : srcCatOK r = true) :
    ∃ s, Row.getVal r "asset_category" = some (.str s) ∧ s ∈ cats := by
  unfold srcCatOK at h
  split at h
  · rename_i s heq
    refine ⟨s, heq, ?_⟩
    simpa using h
  · exact Bool.noConfusion h

theorem Row.getVal_astypeRow (objs : List String) (r : Row) (c : String) :
    Row.getVal (r.map (fun p => (p.1, if objs.contains p.1 then pyStr p.2 else p.2))) c
      = (Row.getVal r c).map (fun v => if objs.contains c then pyStr v else v) :=
  Row.getVal_map_values (fun k v => if objs.contains k then pyStr v else v) r c

/-! ## Claim C1: output invariants and exclusion of bad rows -/

/-- C1: when process_assets succeeds on a well-formed table whose renamed
labels are distinct, every output row has its category in the 14-value
allow-list and coordinates inside the BC bounding box, and the output has
exactly one row per input row that passes the category, missing-coordinate
and bounding-box tests — every other input row is excluded. -/
theorem processAssets_invariants (df : DataFrame) (latcol loncol : String)
    (out : DataFrame)
    (hwf : DataFrame.WF df)
    (hnd : (df.cols.map (renameKey ast_cols)).Nodup)
    (h : process_assets df latcol loncol = .ok out) :
    (∀ r ∈ out.rows,
      (∃ s, Row.getVal r "Category - Classification" = some (.str s) ∧ s ∈ cats) ∧
      (∃ la, Row.getVal r latcol = some (.num la) ∧ 47 ≤ la ∧ la ≤ 60) ∧
      (∃ lo, Row.getVal r loncol = some (.num lo) ∧ -145 ≤ lo ∧ lo ≤ -113)) ∧
    out.rows.length = (df.rows.filter (inputGoodRow latcol loncol)).length := by
  obtain ⟨df1, df3, df4, df5, df6, h1, h2, h3, h4, h5, hout⟩ := process_assets_ok h
  obtain ⟨hcat, hc1, hr1⟩ := filterCategories_ok h1
  obtain ⟨hsel, hc3, hr3⟩ := selectDF_ok h2
  obtain ⟨hsub, hc4, hr4⟩ := dropnaDF_ok h3
  obtain ⟨hc5, hr5⟩ := bcBoxFilter_ok h4
  obtain ⟨hnum, hc6, hr6⟩ := addGeometry_ok h5
  subst hout
  have hdf5 : ∀ r5 ∈ df5.rows,
      numInRange r5 latcol 47 60 = true ∧
      numInRange r5 loncol (-145) (-113) = true := by
    intro r5 hmem
    rw [hr5, List.mem_filter, Bool.and_eq_true] at hmem
    exact hmem.2
  have hlatobj : isObjectColumn df6 latcol = false := by
    unfold isObjectColumn
    rw [List.any_eq_false]
    intro r6 hmem
    rw [hr6, List.mem_map] at hmem
    obtain ⟨r5, h5mem, rfl⟩ := hmem
    obtain ⟨hla, _⟩ := hdf5 r5 h5mem
    obtain ⟨q, hq, _, _⟩ := numInRange_ok hla
    have happ := Row.getVal_append_of_isSome r5
      [("geometry", Value.geom (pointOfRow latcol loncol r5))] latcol _ hq
    simp [happ]
  have hlonobj : isObjectColumn df6 loncol = false := by
    unfold isObjectColumn
    rw [List.any_eq_false]
    intro r6 hmem
    rw [hr6, List.mem_map] at hmem
    obtain ⟨r5, h5mem, rfl⟩ := hmem
    obtain ⟨_, hlo⟩ := hdf5 r5 h5mem
    obtain ⟨q, hq, _, _⟩ := numInRange_ok hlo
    have happ := Row.getVal_append_of_isSome r5
      [("geometry", Value.geom (pointOfRow latcol loncol r5))] loncol _ hq
    simp [happ]
  have hlatcontains : (df6.cols.filter (isObjectColumn df6)).contains latcol = false := by
    simp [List.elem_eq_mem, List.mem_filter, hlatobj]
  have hloncontains : (df6.cols.filter (isObjectColumn df6)).contains loncol = false := by
    simp [List.elem_eq_mem, List.mem_filter, hlonobj]
  refine ⟨?_, ?_⟩
  · intro r hr
    simp only [astypeStrObjects, List.mem_map] at hr
    obtain ⟨r6, hr6mem, rfl⟩ := hr
    rw [hr6, List.mem_map] at hr6mem
    obtain ⟨r5, hr5mem, rfl⟩ := hr6mem
    obtain ⟨hla, hlo⟩ := hdf5 r5 hr5mem
    obtain ⟨la, hlaq, hla1, hla2⟩ := numInRange_ok hla
    obtain ⟨lo, hloq, hlo1, hlo2⟩ := numInRange_ok hlo
    have hr5mem' := hr5mem
    rw [hr5, List.mem_filter] at hr5mem'
    have hr4mem := hr5mem'.1
    rw [hr4, List.mem_filter] at hr4mem
    have hr3mem := hr4mem.1
    rw [hr3, List.mem_map] at hr3mem
    obtain ⟨r2, hr2mem, hr5eq⟩ := hr3mem
    simp only [renameDF, List.mem_map] at hr2mem
    obtain ⟨r0, hr0mem, hr2eq⟩ := hr2mem
    rw [hr1, List.mem_filter] at hr0mem
    obtain ⟨hr0df, hcat0⟩ := hr0mem
    obtain ⟨s, hs, hsmem⟩ := srcCatOK_ok hcat0
    have hnd0 : (r0.map (fun p => renameKey ast_cols p.1)).Nodup := by
      have hkeys := hwf r0 hr0df
      have hmm : r0.map (fun p => renameKey ast_cols p.1) =
          (r0.map Prod.fst).map (renameKey ast_cols) := by
        rw [List.map_map]
        rfl
      rw [hmm, hkeys]
      exact hnd
    have hren := Row.getVal_renameRow ast_cols r0 "asset_category" (.str s) hnd0 hs
    have hrk : renameKey ast_cols "asset_category" = "Category - Classification" := rfl
    rw [hrk] at hren
    have hcat5 : Row.getVal r5 "Category - Classification" = some (.str s) := by
      rw [← hr5eq, ← hr2eq]
      rw [Row.getVal_selectRow]
      rw [if_pos (by decide : "Category - Classification" ∈ astTargets)]
      rw [hren]
      rfl
    refine ⟨⟨s, ?_, hsmem⟩, ⟨la, ?_, hla1, hla2⟩, ⟨lo, ?_, hlo1, hlo2⟩⟩
    · rw [Row.getVal_astypeRow]
      rw [Row.getVal_append_of_isSome _ _ _ _ hcat5]
      cases hcc : (df6.cols.filter (isObjectColumn df6)).contains
          "Category - Classification" <;>
        simp [hcc, pyStr]
    · rw [Row.getVal_astypeRow]
      rw [Row.getVal_append_of_isSome _ _ _ _ hlaq]
      simp [hlatcontains, hlatobj]
    · rw [Row.getVal_astypeRow]
      rw [Row.getVal_append_of_isSome _ _ _ _ hloq]
      simp [hloncontains, hlonobj]
  · simp only [astypeStrObjects]
    rw [List.length_map]
    rw [hr6, List.length_map]
    rw [hr5, hr4, hr3]
    simp only [renameDF]
    rw [hr1]
    rw [List.map_map]
    rw [List.filter_map]
    rw [List.filter_map]
    rw [List.length_map]
    rw [List.filter_filter]
    rw [List.filter_filter]
    apply congrArg List.length
    apply List.filter_congr
    intro r _
    have hbool : ∀ a b c : Bool, ((a && b) && c) = (c && (b && a)) := by decide
    simp only [inputGoodRow, Function.comp]
    exact hbool _ _ _

/-- C1 witness: the scenario table is well formed, its renamed labels are
distinct, and the theorem applies with the concrete coordinate columns. -/
theorem processAssets_invariants_witness :
    DataFrame.WF exampleDF10 ∧
    ∃ out, process_assets exampleDF10 "GIS Latitude" "GIS Longitude" = .ok out ∧
      out.rows.length =
        (exampleDF10.rows.filter
          (inputGoodRow "GIS Latitude" "GIS Longitude")).length := by
  have hwf : DataFrame.WF exampleDF10 :=
    (by decide : ∀ r ∈ exampleDF10.rows, r.map Prod.fst = exampleDF10.cols)
  refine ⟨hwf, _, rfl, ?_⟩
  exact (processAssets_invariants exampleDF10 "GIS Latitude" "GIS Longitude" _
    hwf (by decide) rfl).2

/-! ## Claim C7: read_assets concatenates the per-table queries -/

theorem readAssets_foldlM (pg : PostGIS) (ts : List PGTable) :
    ∀ (ds : List DataFrame) (acc : List (String × DataFrame)) (x : Option DataFrame),
      (ts.map (fun t => t.name)).Nodup →
      (∀ p ∈ acc, ∀ t ∈ ts, p.1 ≠ t.name) →
      List.Forall₂ (fun t d => queryAssetTable pg t = .ok d) ts ds →
      ts.foldlM (readAssetsStep pg) (acc, x) = .ok
        (acc ++ (ts.map (fun t => t.name)).zip ds,
         if ts.isEmpty then x
         else some (concatDFs
           ((acc ++ (ts.map (fun t => t.name)).zip ds).map (fun p => p.2)))) := by
  induction ts with
  | nil =>
    intro ds acc x _ _ hf
    cases hf
    show Except.ok (acc, x) = _
    simp
  | cons t ts ih =>
    intro ds acc x hnd hdisj hf
    cases hf with
    | cons hq hrest =>
      rename_i d ds'
      rw [List.map_cons, List.nodup_cons] at hnd
      have hstep : readAssetsStep pg (acc, x) t = .ok
          (acc ++ [(t.name, d)],
           some (concatDFs ((acc ++ [(t.name, d)]).map (fun p => p.2)))) := by
        have hins : dictInsert acc t.name d = acc ++ [(t.name, d)] := by
          unfold dictInsert
          rw [if_neg ?_]
          intro hany
          rw [List.any_eq_true] at hany
          obtain ⟨p, hp, hpb⟩ := hany
          exact hdisj p hp t (List.mem_cons_self t ts) (by simpa using hpb)
        unfold readAssetsStep
        rw [hq]
        show Except.ok (dictInsert acc t.name d,
          some (concatDFs ((dictInsert acc t.name d).map (fun p => p.2)))) = _
        rw [hins]
      rw [List.foldlM_cons, hstep]
      show List.foldlM (readAssetsStep pg)
        (acc ++ [(t.name, d)],
         some (concatDFs ((acc ++ [(t.name, d)]).map (fun p => p.2)))) ts = _
      rw [ih ds' (acc ++ [(t.name, d)])
        (some (concatDFs ((acc ++ [(t.name, d)]).map (fun p => p.2))))
        hnd.2 ?_ hrest]
      · have hA : acc ++ (List.map (fun t => t.name) (t :: ts)).zip (d :: ds') =
            (acc ++ [(t.name, d)]) ++ (List.map (fun t => t.name) ts).zip ds' := by
          rw [List.map_cons, List.zip_cons_cons, List.append_cons]
        rw [hA]
        rw [show (t :: ts).isEmpty = false from rfl]
        cases hts : ts.isEmpty with
        | false => simp
        | true =>
          have hnil : ts = [] := by
            cases ts with
            | nil => rfl
            | cons a l => exact Bool.noConfusion hts
          subst hnil
          cases hrest
          simp
      · intro p hp t' ht'
        rcases List.mem_append.1 hp with hpl | hpr
        · exact hdisj p hpl t' (List.mem_cons_of_mem t ht')
        · rw [List.mem_singleton] at hpr
          subst hpr
          intro hcontra
          apply hnd.1
          have hcontra' : t.name = t'.name := hcontra
          rw [hcontra']
          exact List.mem_map_of_mem (fun t => t.name) ht'

/-- C7: on a schema whose data tables (everything except qgis_projects)
are nonempty and distinctly named, read_assets succeeds and returns the
concatenation, in listing order, of the per-table query results — all
columns minus the raw geometry plus derived WGS84 latitude/longitude
(centroid-based for the linear tables) — as one flat table. -/
theorem readAssets_is_concat_of_table_queries (pg : PostGIS) (db : List PGTable)
    (ds : List DataFrame)
    (hne : assetsSchemaTables db ≠ [])
    (hnd : ((assetsSchemaTables db).map (fun t => t.name)).Nodup)
    (hq : List.Forall₂ (fun t d => queryAssetTable pg t = .ok d)
      (assetsSchemaTables db) ds) :
    read_assets pg db = .ok (concatDFs ds) := by
  unfold read_assets
  rw [readAssets_foldlM pg (assetsSchemaTables db) ds [] none hnd
    (by intro p hp; exact absurd hp (List.not_mem_nil p)) hq]
  have hemp : (assetsSchemaTables db).isEmpty = false := by
    cases hcase : assetsSchemaTables db with
    | nil => exact absurd hcase hne
    | cons a l => rfl
  rw [hemp]
  have hlen : ds.length ≤ ((assetsSchemaTables db).map (fun t => t.name)).length := by
    rw [List.length_map, ← List.Forall₂.length_eq hq]
  have hsnd : (((assetsSchemaTables db).map (fun t => t.name)).zip ds).map
      (fun p : String × DataFrame => p.2) = ds :=
    List.map_snd_zip _ _ hlen
  simp [hsnd]

/-- C7 witness: the example schema with a point table and a linear table —
the reader equals the concatenation of the two per-table results. -/
theorem readAssets_is_concat_of_table_queries_witness :
    ∃ d₁ d₂,
      List.Forall₂ (fun t d => queryAssetTable pgOracle t = .ok d)
        (assetsSchemaTables dbExample) [d₁, d₂] ∧
      read_assets pgOracle dbExample = .ok (concatDFs [d₁, d₂]) := by
  refine ⟨_, _, .cons rfl (.cons rfl .nil), ?_⟩
  exact readAssets_is_concat_of_table_queries pgOracle dbExample _
    (by decide) (by decide) (.cons rfl (.cons rfl .nil))
